import Mathlib

/-
Verification development for the Vista Haven analysis pipeline
(src/vistahaven_analysis.py).  The pipeline is shallowly embedded:
a pandas DataFrame row becomes the structure Row, float arithmetic
becomes exact rational arithmetic, the numpy global random generator
becomes an explicit state threaded through the generator, exceptions
become Except values, and matplotlib calls are modelled only through
the data-shape checks that can make them raise.
-/

namespace VistaHaven

/-- Division of rationals written through Rat.divInt so that it reduces
inside the kernel; it agrees with ordinary division, including the
division-by-zero convention (see ratDiv_eq_div below). -/
def ratDiv (a b : ℚ) : ℚ := Rat.divInt (a.num * (b.den : ℤ)) ((a.den : ℤ) * b.num)

/-- Rounding to two decimal places, used for the Python round(price, 2)
call in the generator and for the SQLite ROUND(AVG(price), 2) in the
SQL queries.  Ties are rounded up; the tie-breaking convention is
irrelevant to every property proved below. -/
def round2 (q : ℚ) : ℚ := mkRat (100 * q + mkRat 1 2).floor 100

/-- Insertion of an element into a list sorted by the boolean
comparison le. -/
def insSorted {α : Type} (le : α → α → Bool) (a : α) : List α → List α
  | [] => [a]
  | b :: t => if le a b then a :: b :: t else b :: insSorted le a t

/-- Insertion sort by the boolean comparison le.  A structural sort is
used (rather than the library merge sort) so that sorting reduces
inside the kernel on concrete inputs. -/
def insSort {α : Type} (le : α → α → Bool) (l : List α) : List α :=
  l.foldr (insSorted le) []

/-- Comparison used to sort rational columns ascending. -/
def leQ (a b : ℚ) : Bool := decide (a ≤ b)

/-- Comparison used to sort integer group keys ascending. -/
def leZ (a b : ℤ) : Bool := decide (a ≤ b)

/-- Comparison used to sort natural-number group keys ascending. -/
def leN (a b : ℕ) : Bool := decide (a ≤ b)

/-- State of the numpy global random generator.  The Mersenne-Twister
internals are abstracted to a single natural number evolved by a
linear-congruential step: every claim below depends only on the
generator being a deterministic function of the seeded state, never on
the distribution of the draws. -/
abbrev RngState := ℕ

/-- One step of the modelled generator: a 32-bit output word and the
next state. -/
def npNext (s : RngState) : ℕ × RngState :=
  let t := (6364136223846793005 * s + 1442695040888963407) % (2 ^ 64)
  ((t / 2 ^ 16) % 2 ^ 32, t)

/-- Model of np.random.seed: the state after seeding is a function of
the seed value alone, discarding whatever state the generator held. -/
def npSeed (k : ℕ) : RngState := (2862933555777941757 * k + 3037000493) % (2 ^ 64)

/-- Uniform draw in the half-open range from lo to hi, modelling
np.random.randint(lo, hi). -/
def randint (s : RngState) (lo hi : ℕ) : ℕ × RngState :=
  let o := npNext s
  (lo + o.1 % (hi - lo), o.2)

/-- Uniform rational draw in the unit interval, the primitive behind
the continuous and weighted draws. -/
def randQ (s : RngState) : ℚ × RngState :=
  let o := npNext s
  (mkRat (o.1 % 2 ^ 32) (2 ^ 32), o.2)

/-- Model of np.random.uniform(a, b). -/
def uniformQ (s : RngState) (a b : ℚ) : ℚ × RngState :=
  let u := randQ s
  (a + u.1 * (b - a), u.2)

/-- Model of a Bernoulli draw: np.random.choice over a true/false pair
with probability p of true. -/
def bernoulli (s : RngState) (p : ℚ) : Bool × RngState :=
  let u := randQ s
  (decide (u.1 < p), u.2)

/-- Model of np.random.poisson(mean).  Only determinism and the return
type matter for the claims; the draw is a bounded nonnegative integer
and the Poisson law itself is abstracted. -/
def poissonDraw (s : RngState) (mean : ℕ) : ℕ × RngState :=
  let o := npNext s
  (o.1 % (2 * mean + 1), o.2)

/-- Uniform choice from a list, modelling np.random.choice(xs). -/
def choiceU {α : Type} (s : RngState) (xs : List α) (dflt : α) : α × RngState :=
  let o := npNext s
  (xs.getD (o.1 % xs.length) dflt, o.2)

/-- Walk a cumulative weight table with a unit-interval draw. -/
def pickW {α : Type} (u : ℚ) : List (α × ℚ) → α → α
  | [], dflt => dflt
  | (x, w) :: rest, dflt => if u < w then x else pickW (u - w) rest dflt

/-- Weighted choice, modelling np.random.choice(xs, p=ws). -/
def choiceW {α : Type} (s : RngState) (xs : List (α × ℚ)) (dflt : α) : α × RngState :=
  let u := randQ s
  (pickW u.1 xs dflt, u.2)

/-- Value held by one of the six boolean-like columns: the generator
writes Python booleans, the cleaner casts them to integers with
astype(int). -/
inductive BCell where
  | bool : Bool → BCell
  | int : ℤ → BCell
deriving DecidableEq

/-- Integer value of a boolean-like cell, as produced by astype(int). -/
def BCell.toInt : BCell → ℤ
  | .bool b => if b then 1 else 0
  | .int z => z

/-- Cast of a boolean-like cell performed by astype(int) during
cleaning. -/
def BCell.astypeInt (c : BCell) : BCell := .int c.toInt

/-- One listing row, with the exact column set built by the generator.
Integer-valued columns are naturals, money and ratings are rationals,
review_scores_rating is nullable, and the six boolean columns hold a
BCell. -/
structure Row where
  listing_id : ℕ
  city : String
  neighborhood : String
  property_type : String
  room_type : String
  accommodates : ℕ
  bedrooms : ℕ
  bathrooms : ℚ
  price : ℚ
  minimum_nights : ℕ
  number_of_reviews : ℕ
  review_scores_rating : Option ℚ
  host_is_superhost : BCell
  host_listings_count : ℕ
  instant_bookable : BCell
  availability_365 : ℕ
  num_amenities : ℕ
  has_wifi : BCell
  has_kitchen : BCell
  has_parking : BCell
  has_pool : BCell
deriving DecidableEq

/-- The eight cities the generator draws from. -/
def cities : List String :=
  [("New York"), ("San Francisco"), ("Los Angeles"), ("Chicago"),
   ("Boston"), ("Seattle"), ("Austin"), ("Miami")]

/-- Room types with their draw probabilities 0.5, 0.35, 0.1, 0.05. -/
def roomTypeTable : List (String × ℚ) :=
  [(("Entire home/apt"), mkRat 1 2), (("Private room"), mkRat 7 20),
   (("Shared room"), mkRat 1 10), (("Hotel room"), mkRat 1 20)]

/-- The seven property types, drawn uniformly. -/
def propertyTypes : List String :=
  [("Apartment"), ("House"), ("Condo"), ("Townhouse"),
   ("Loft"), ("Villa"), ("Cottage")]

/-- The seven generic neighborhoods, drawn uniformly. -/
def neighborhoods : List String :=
  [("Downtown"), ("Midtown"), ("Uptown"), ("Waterfront"),
   ("Historic District"), ("Arts District"), ("Business District")]

/-- Per-city price multiplier table, defaulting to 1.0 as in the
source dictionary lookup with get(city, 1.0). -/
def cityMultiplier (c : String) : ℚ :=
  if c = "New York" then mkRat 3 2
  else if c = "San Francisco" then mkRat 7 5
  else if c = "Los Angeles" then mkRat 6 5
  else if c = "Boston" then mkRat 13 10
  else if c = "Seattle" then mkRat 6 5
  else if c = "Chicago" then 1
  else if c = "Austin" then mkRat 9 10
  else if c = "Miami" then mkRat 11 10
  else 1

/-- Bathroom-count table with weights 0.3, 0.25, 0.25, 0.15, 0.05. -/
def bathroomTable : List (ℚ × ℚ) :=
  [(1, mkRat 3 10), (mkRat 3 2, mkRat 1 4), (2, mkRat 1 4),
   (mkRat 5 2, mkRat 3 20), (3, mkRat 1 20)]

/-- Host-listings-count table with weights 0.5, 0.2, 0.15, 0.1, 0.05. -/
def hostListingsTable : List (ℕ × ℚ) :=
  [(1, mkRat 1 2), (2, mkRat 1 5), (3, mkRat 3 20), (5, mkRat 1 10), (10, mkRat 1 20)]

/-- Minimum-nights table with weights 0.5, 0.2, 0.15, 0.1, 0.05. -/
def minimumNightsTable : List (ℕ × ℚ) :=
  [(1, mkRat 1 2), (2, mkRat 1 5), (3, mkRat 3 20), (7, mkRat 1 10), (30, mkRat 1 20)]

/-- Generation of a single listing: the draws happen in exactly the
order of the loop body of the sample-data generator, and the price is
assembled by the same additive formula, scaled by uniform noise in
[0.85, 1.15], floored at 30 and rounded to two decimals. -/
def genRow (i : ℕ) (s0 : RngState) : Row × RngState :=
  let d1 := choiceU s0 cities ("New York")
  let city := d1.1
  let d2 := choiceW d1.2 roomTypeTable ("Entire home/apt")
  let room_type := d2.1
  let d3 := choiceU d2.2 propertyTypes ("Apartment")
  let property_type := d3.1
  let d4 := choiceU d3.2 neighborhoods ("Downtown")
  let neighborhood := d4.1
  let base_price : ℚ := 100 * cityMultiplier city
  let base_price : ℚ :=
    if room_type = "Entire home/apt" then base_price * mkRat 3 2
    else if room_type = "Private room" then base_price * mkRat 7 10
    else if room_type = "Shared room" then base_price * mkRat 2 5
    else if room_type = "Hotel room" then base_price * mkRat 6 5
    else base_price
  let d5 := randint d4.2 1 6
  let bedrooms := d5.1
  let d6 := choiceW d5.2 bathroomTable 1
  let bathrooms := d6.1
  let d7 := randint d6.2 0 3
  let accommodates := bedrooms * 2 + d7.1
  let d8 := poissonDraw d7.2 20
  let number_of_reviews := d8.1
  let d9 :=
    if number_of_reviews > 0 then
      let u := uniformQ d8.2 (mkRat 7 2) 5
      (some u.1, u.2)
    else (none, d8.2)
  let review_scores_rating : Option ℚ := d9.1
  let d10 := randint d9.2 5 25
  let num_amenities := d10.1
  let d11 := bernoulli d10.2 (mkRat 19 20)
  let has_wifi := d11.1
  let d12 := bernoulli d11.2 (mkRat 4 5)
  let has_kitchen := d12.1
  let d13 := bernoulli d12.2 (mkRat 3 5)
  let has_parking := d13.1
  let d14 := bernoulli d13.2 (mkRat 1 5)
  let has_pool := d14.1
  let d15 := bernoulli d14.2 (mkRat 3 10)
  let host_is_superhost := d15.1
  let d16 := choiceW d15.2 hostListingsTable 1
  let host_listings_count := d16.1
  let d17 := bernoulli d16.2 (mkRat 3 5)
  let instant_bookable := d17.1
  let d18 := choiceW d17.2 minimumNightsTable 1
  let minimum_nights := d18.1
  let price0 : ℚ := base_price + bedrooms * 30 + bathrooms * 20 + num_amenities * 2
    + (if has_wifi then 20 else 0) + (if has_kitchen then 30 else 0)
    + (if has_parking then 25 else 0) + (if has_pool then 40 else 0)
    + (if host_is_superhost then 30 else 0)
    + (match review_scores_rating with
       | some rt => (rt - 4) * 30
       | none => 0)
  let d19 := uniformQ d18.2 (mkRat 17 20) (mkRat 23 20)
  let price : ℚ := max 30 (round2 (price0 * d19.1))
  let d20 := randint d19.2 0 366
  let availability_365 := d20.1
  ({ listing_id := i + 1
     city := city
     neighborhood := neighborhood
     property_type := property_type
     room_type := room_type
     accommodates := accommodates
     bedrooms := bedrooms
     bathrooms := bathrooms
     price := price
     minimum_nights := minimum_nights
     number_of_reviews := number_of_reviews
     review_scores_rating := review_scores_rating
     host_is_superhost := .bool host_is_superhost
     host_listings_count := host_listings_count
     instant_bookable := .bool instant_bookable
     availability_365 := availability_365
     num_amenities := num_amenities
     has_wifi := .bool has_wifi
     has_kitchen := .bool has_kitchen
     has_parking := .bool has_parking
     has_pool := .bool has_pool }, d20.2)

/-- Generation loop: one row per index, threading the generator
state. -/
def genAll : ℕ → ℕ → RngState → List Row
  | 0, _, _ => []
  | n + 1, i, s =>
    let rs := genRow i s
    rs.1 :: genAll n (i + 1) rs.2

/-- Embedding of the sample-data generator (written with a leading
underscore in the source).  It first reseeds the global generator with
the fixed seed 42 - discarding the ambient state s - and then builds
n listings (default 1000). -/
def generate_sample_data (s : RngState) (n : ℕ := 1000) : List Row :=
  genAll n 0 (npSeed 42)

/-- Argument of load_data: the sample selector or a path to a CSV
file. -/
inductive DataSource where
  | sample : DataSource
  | path : String → DataSource
deriving DecidableEq

/-- Embedding of load_data.  Reading a CSV file is modelled by the
function read_csv handed in as a parameter, returning either a parsed
dataset or the message of the exception pandas raised; the ambient
generator state is s.  The try/except of the source absorbs the
failure and falls back to generate_sample_data with the default count,
so the result type is Except only to show that no error value can
escape. -/
def load_data (s : RngState) (read_csv : String → Except String (List Row)) :
    DataSource → Except String (List Row)
  | .sample => .ok (generate_sample_data s 1000)
  | .path p =>
    match read_csv p with
    | .ok df => .ok df
    | .error _ => .ok (generate_sample_data s 1000)

/-- Linear-interpolation quantile of an already sorted list, the
default interpolation of pandas Series.quantile: at fractional
position q times (n - 1).  On an empty column pandas yields NaN; the
cleaner then filters every row out, which the development handles
separately, so the value returned here for an empty list is
irrelevant and fixed to 0. -/
def quantileSorted (xs : List ℚ) (q : ℚ) : ℚ :=
  if xs.length = 0 then 0
  else
    let h : ℚ := q * ((xs.length : ℚ) - 1)
    let i : ℕ := h.floor.toNat
    let γ : ℚ := h - (i : ℚ)
    let xi := xs.getD i 0
    let xi1 := xs.getD (i + 1) xi
    xi + γ * (xi1 - xi)

/-- Quantile of an unsorted rational column. -/
def quantile (l : List ℚ) (q : ℚ) : ℚ := quantileSorted (insSort leQ l) q

/-- Median of the non-null review scores, as computed by the pandas
Series.median call inside fillna: NaN entries are skipped, and the
median of an all-null column is itself NaN (here: none), in which case
fillna leaves the nulls in place. -/
def ratingMedian (df : List Row) : Option ℚ :=
  let rs := df.filterMap Row.review_scores_rating
  if rs.length = 0 then none else some (quantile rs (mkRat 1 2))

/-- Filling of a null review score with the column median, the
fillna(median, inplace=True) step of clean_data. -/
def fillRating (med : Option ℚ) (r : Row) : Row :=
  match r.review_scores_rating with
  | some _ => r
  | none => { r with review_scores_rating := med }

/-- Cast of the six boolean columns with astype(int), the last step of
clean_data. -/
def castBools (r : Row) : Row :=
  { r with
    host_is_superhost := r.host_is_superhost.astypeInt
    instant_bookable := r.instant_bookable.astypeInt
    has_wifi := r.has_wifi.astypeInt
    has_kitchen := r.has_kitchen.astypeInt
    has_parking := r.has_parking.astypeInt
    has_pool := r.has_pool.astypeInt }

/-- Dataset after the fillna step of clean_data. -/
def filledRows (df : List Row) : List Row := df.map (fillRating (ratingMedian df))

/-- Embedding of clean_data: fill null review scores with the column
median, compute the 1st and 99th percentile of price, keep exactly the
rows whose price lies inside the closed band, and cast the six boolean
columns to integers. -/
def clean_data (df : List Row) : List Row :=
  let q01 := quantile ((filledRows df).map Row.price) (mkRat 1 100)
  let q99 := quantile ((filledRows df).map Row.price) (mkRat 99 100)
  ((filledRows df).filter fun r => decide (q01 ≤ r.price) && decide (r.price ≤ q99)).map
    castBools

/-- The six boolean columns of a row, in source order, used to state
that a second cleaning pass leaves them unchanged. -/
def boolColumns (r : Row) : List BCell :=
  [r.host_is_superhost, r.instant_bookable, r.has_wifi,
   r.has_kitchen, r.has_parking, r.has_pool]

/-- Mean of a rational column, with the empty-column value fixed by
ratDiv to 0 (pandas returns NaN there; no property below depends on
it). -/
def meanQ (l : List ℚ) : ℚ := ratDiv l.sum (l.length : ℚ)

/-- Average price of a set of rows, the AVG(price) of the SQL queries
and the mean() of the pandas groupbys. -/
def avgPrice (l : List Row) : ℚ := meanQ (l.map Row.price)

/-- Integer value of one of the boolean-like columns of a row, the
form in which the SQL layer sees it after cleaning. -/
def toIntFlag (f : Row → BCell) (r : Row) : ℤ := (f r).toInt

/-- Distinct group keys of an integer column in ascending order, the
grouping performed by GROUP BY over that column. -/
def groupKeys (ks : List ℤ) : List ℤ := insSort leZ ks.dedup

/-- One CASE WHEN flag = 1 THEN with-label ELSE no-label comparison
with ROUND(AVG(price), 2), grouped by the flag column - the building
block of the amenity-impact query. -/
def flagComparison (f : Row → BCell) (lblWith lblNo : String) (df : List Row) :
    List (String × ℚ) :=
  (groupKeys (df.map (toIntFlag f))).map fun v =>
    ((if v = 1 then lblWith else lblNo),
      round2 (avgPrice (df.filter fun r => decide (toIntFlag f r = v))))

/-- Result rows of the amenity-impact query of perform_sql_analysis:
the UNION ALL of the wifi, kitchen and pool comparisons.  The query
contains no branch for has_parking. -/
def amenityImpactQuery (df : List Row) : List (String × ℚ) :=
  flagComparison Row.has_wifi ("With WiFi") ("No WiFi") df ++
    flagComparison Row.has_kitchen ("With Kitchen") ("No Kitchen") df ++
      flagComparison Row.has_pool ("With Pool") ("No Pool") df

/-- Result rows of the superhost-premium query of
perform_sql_analysis: average price and listing count grouped by
superhost status. -/
def superhostPremiumQuery (df : List Row) : List (String × ℚ × ℕ) :=
  (groupKeys (df.map (toIntFlag Row.host_is_superhost))).map fun v =>
    ((if v = 1 then "Superhost" else "Regular Host"),
      round2 (avgPrice (df.filter fun r => decide (toIntFlag Row.host_is_superhost r = v))),
      (df.filter fun r => decide (toIntFlag Row.host_is_superhost r = v)).length)

/-- Result rows of the most-expensive-cities query: average price and
count per city, sorted descending by average, first ten kept. -/
def expensiveCitiesQuery (df : List Row) : List (String × ℚ × ℕ) :=
  (insSort (fun a b => decide (b.2.1 ≤ a.2.1))
    ((df.map Row.city).dedup.map fun c =>
      (c, round2 (avgPrice (df.filter fun r => decide (r.city = c))),
        (df.filter fun r => decide (r.city = c)).length))).take 10

/-- Result rows of the bedroom query: average price and count per
bedroom count, restricted to at most five bedrooms, ascending. -/
def bedroomAnalysisQuery (df : List Row) : List (ℕ × ℚ × ℕ) :=
  (insSort leN ((df.filter fun r => decide (r.bedrooms ≤ 5)).map Row.bedrooms).dedup).map
    fun b =>
      (b, round2 (avgPrice (df.filter fun r => decide (r.bedrooms = b ∧ r.bedrooms ≤ 5))),
        (df.filter fun r => decide (r.bedrooms = b ∧ r.bedrooms ≤ 5)).length)

/-- The four result sets returned by perform_sql_analysis. -/
structure SqlAnalysis where
  expensive_cities : List (String × ℚ × ℕ)
  amenity_impact : List (String × ℚ)
  superhost_premium : List (String × ℚ × ℕ)
  bedroom_analysis : List (ℕ × ℚ × ℕ)
deriving DecidableEq

/-- Embedding of perform_sql_analysis: the four queries run over the
in-memory listings table, which holds the cleaned dataset. -/
def perform_sql_analysis (df : List Row) : SqlAnalysis :=
  { expensive_cities := expensiveCitiesQuery df
    amenity_impact := amenityImpactQuery df
    superhost_premium := superhostPremiumQuery df
    bedroom_analysis := bedroomAnalysisQuery df }

/-- The ten numeric columns selected by correlation_analysis, in
source order; review_scores_rating keeps its nullability, and pandas
corr handles null entries by pairwise deletion. -/
def numericColumns (r : Row) : List (Option ℚ) :=
  [some r.price, some (r.accommodates : ℚ), some (r.bedrooms : ℚ), some r.bathrooms,
   some (r.minimum_nights : ℚ), some (r.number_of_reviews : ℚ), r.review_scores_rating,
   some (r.host_listings_count : ℚ), some (r.availability_365 : ℚ),
   some (r.num_amenities : ℚ)]

/-- Value of the i-th numeric column of a row. -/
def colVal (i : Fin 10) (r : Row) : Option ℚ := (numericColumns r).get ⟨i.val, i.isLt⟩

/-- Pairwise-complete observations of two numeric columns: the rows
where both entries are non-null, as used by pandas corr. -/
def pairsOf (df : List Row) (i j : Fin 10) : List (ℚ × ℚ) :=
  df.filterMap fun r =>
    match colVal i r, colVal j r with
    | some x, some y => some (x, y)
    | _, _ => none

/-- Centered cross-product sum of a list of observation pairs, the
numerator of the Pearson coefficient. -/
def covPairs (p : List (ℚ × ℚ)) : ℚ :=
  (p.map fun z => (z.1 - meanQ (p.map Prod.fst)) * (z.2 - meanQ (p.map Prod.snd))).sum

/-- Centered sum of squares of the first components of the
observation pairs. -/
def ssFst (p : List (ℚ × ℚ)) : ℚ :=
  (p.map fun z => (z.1 - meanQ (p.map Prod.fst)) ^ 2).sum

/-- Centered sum of squares of the second components of the
observation pairs. -/
def ssSnd (p : List (ℚ × ℚ)) : ℚ :=
  (p.map fun z => (z.2 - meanQ (p.map Prod.snd)) ^ 2).sum

/-- Entry (i, j) of the correlation matrix computed by
correlation_analysis: the Pearson coefficient of the i-th and j-th
numeric columns over their pairwise-complete observations.  The square
root forces the value into the reals. -/
noncomputable def correlation_matrix (df : List Row) (i j : Fin 10) : ℝ :=
  ((covPairs (pairsOf df i j) : ℚ) : ℝ) /
    (Real.sqrt ((ssFst (pairsOf df i j) : ℚ) : ℝ) *
      Real.sqrt ((ssSnd (pairsOf df i j) : ℚ) : ℝ))

instance : Inhabited Row :=
  ⟨{ listing_id := 0, city := "", neighborhood := "", property_type := "",
     room_type := "", accommodates := 0, bedrooms := 0, bathrooms := 0, price := 0,
     minimum_nights := 0, number_of_reviews := 0, review_scores_rating := none,
     host_is_superhost := .int 0, host_listings_count := 0, instant_bookable := .int 0,
     availability_365 := 0, num_amenities := 0, has_wifi := .int 0,
     has_kitchen := .int 0, has_parking := .int 0, has_pool := .int 0 }⟩

/-- Broadcasting compatibility of two one-dimensional lengths under
numpy rules: equal lengths, or either side of length one. -/
def mplBroadcastOk (m n : ℕ) : Bool := m == n || m == 1 || n == 1

/-- Model of Axes.bar and Axes.barh: the call raises a ValueError when
the positions and heights cannot be broadcast to a single shape, and
succeeds otherwise.  All other drawing work is free of data-shape
failures and is elided. -/
def mplBar (labels : List String) (heights : List ℚ) : Except String Unit :=
  if mplBroadcastOk labels.length heights.length then .ok ()
  else .error ("shape mismatch: objects cannot be broadcast to a single shape")

/-- Mean price per superhost group, ascending by group key: the data
of the superhost panel of create_visualizations. -/
def superhostGroupMeans (df : List Row) : List ℚ :=
  (groupKeys (df.map (toIntFlag Row.host_is_superhost))).map fun v =>
    avgPrice (df.filter fun r => decide (toIntFlag Row.host_is_superhost r = v))

/-- Price deltas of the four amenities: the data of the amenity panel
of create_visualizations.  On cleaned data every flag is 0 or 1. -/
def amenityImpacts (df : List Row) : List ℚ :=
  [Row.has_wifi, Row.has_kitchen, Row.has_parking, Row.has_pool].map fun f =>
    avgPrice (df.filter fun r => decide (toIntFlag f r = 1)) -
      avgPrice (df.filter fun r => decide (toIntFlag f r = 0))

/-- Embedding of create_visualizations.  Of the six panels, the
histogram, the city bars, the box plot and the bedroom line accept any
non-empty data; the two calls that impose a shape constraint are the
superhost bar chart (two hard-coded labels against one bar per
superhost group) and the amenity chart (four labels against four
deltas). -/
def create_visualizations (df : List Row) : Except String Unit := do
  mplBar [("Regular Host"), ("Superhost")] (superhostGroupMeans df)
  mplBar [("WiFi"), ("Kitchen"), ("Parking"), ("Pool")] (amenityImpacts df)

/-- Mean price per city, the grouping whose idxmax opens
generate_report. -/
def cityMeans (df : List Row) : List (String × ℚ) :=
  (df.map Row.city).dedup.map fun c =>
    (c, avgPrice (df.filter fun r => decide (r.city = c)))

/-- Embedding of generate_report.  Every numeric insight in the report
is a pandas mean, difference or correlation, all of which return NaN
rather than raise on degenerate input; the single raising operation is
idxmax over the per-city means, which fails exactly on an empty
grouping. -/
def generate_report (df : List Row) : Except String Unit :=
  match cityMeans df with
  | [] => .error ("attempt to get argmax of an empty sequence")
  | _ :: _ => .ok ()

/-- Template listing used to build the concrete datasets of the
witnesses: already clean in the sense of clean_data (non-null rating,
integer boolean columns). -/
def baseRow : Row :=
  { listing_id := 1
    city := ("New York")
    neighborhood := ("Downtown")
    property_type := ("Apartment")
    room_type := ("Entire home/apt")
    accommodates := 2
    bedrooms := 1
    bathrooms := 1
    price := 100
    minimum_nights := 1
    number_of_reviews := 5
    review_scores_rating := some 4
    host_is_superhost := .int 1
    host_listings_count := 1
    instant_bookable := .int 1
    availability_365 := 100
    num_amenities := 10
    has_wifi := .int 1
    has_kitchen := .int 1
    has_parking := .int 1
    has_pool := .int 0 }

/-- Concrete dataset that the cleaner leaves untouched: the two lowest
and the two highest prices are tied, so the interpolated 1st and 99th
percentiles coincide with the extremes and the band keeps every
row. -/
def wFix : List Row :=
  [{ baseRow with listing_id := 1, price := 1 },
   { baseRow with listing_id := 2, price := 1 },
   { baseRow with listing_id := 3, price := 9 },
   { baseRow with listing_id := 4, price := 9 }]

/-- Concrete single already-clean listing. -/
def wOne : Row := { baseRow with price := 4 }

/-- Concrete cleaned two-row dataset in which every compared flag takes
both values. -/
def wSqlData : List Row :=
  [{ baseRow with
      listing_id := 1
      has_wifi := .int 1
      has_kitchen := .int 1
      has_pool := .int 1
      host_is_superhost := .int 1 },
   { baseRow with
      listing_id := 2
      has_wifi := .int 0
      has_kitchen := .int 0
      has_pool := .int 0
      host_is_superhost := .int 0 }]

/-- Concrete raw dataset whose parking flag takes both values; both
rows survive cleaning since their prices are tied. -/
def wParkIn : List Row :=
  [{ baseRow with listing_id := 1, has_parking := .bool true },
   { baseRow with listing_id := 2, has_parking := .bool false }]

/-- Concrete raw dataset with both superhost classes present. -/
def wVizIn : List Row :=
  [{ baseRow with listing_id := 1, host_is_superhost := .bool true },
   { baseRow with listing_id := 2, host_is_superhost := .bool false }]

/-- Concrete cleaned two-row dataset in which each of the ten numeric
columns takes two distinct values, so every column has non-zero
centered sum of squares. -/
def wCorrData : List Row :=
  [baseRow,
   { baseRow with
      listing_id := 2
      price := 200
      accommodates := 4
      bedrooms := 2
      bathrooms := 2
      minimum_nights := 2
      number_of_reviews := 10
      review_scores_rating := some (mkRat 9 2)
      host_listings_count := 2
      availability_365 := 200
      num_amenities := 20 }]

/-- CSV reader that fails on every path, modelling a missing or
malformed file. -/
def readFail : String → Except String (List Row) := fun _ =>
  .error ("No such file or directory")

/-
Helper lemmas about the embedded operations.
-/

/-- The kernel-reducible division agrees with field division on ℚ,
including the division-by-zero convention. -/
theorem ratDiv_eq_div (a b : ℚ) : ratDiv a b = a / b := by
  have h1 : ratDiv a b = ((a.num : ℚ) * (b.den : ℚ)) / ((a.den : ℚ) * (b.num : ℚ)) := by
    unfold ratDiv
    rw [Rat.divInt_eq_div]
    push_cast
    rfl
  rw [h1, mul_div_mul_comm, Rat.num_div_den, ← inv_div, Rat.num_div_den,
    ← div_eq_mul_inv]

/-- Inserting into a list is a permutation of consing. -/
theorem insSorted_perm {α : Type} (le : α → α → Bool) (a : α) (l : List α) :
    (insSorted le a l).Perm (a :: l) := by
  induction l with
  | nil => exact List.Perm.refl _
  | cons b t ih =>
    unfold insSorted
    by_cases h : le a b
    · rw [if_pos h]
    · rw [if_neg h]
      exact (ih.cons b).trans (List.Perm.swap a b t)

/-- Insertion sort permutes its input. -/
theorem insSort_perm {α : Type} (le : α → α → Bool) (l : List α) :
    (insSort le l).Perm l := by
  induction l with
  | nil => exact List.Perm.refl _
  | cons x t ih => exact (insSorted_perm le x (insSort le t)).trans (ih.cons x)

/-- The generation loop produces exactly as many rows as requested. -/
theorem genAll_length : ∀ (n i : ℕ) (s : RngState), (genAll n i s).length = n := by
  intro n
  induction n with
  | zero => intro i s; rfl
  | succ m ih => intro i s; simpa [genAll] using ih (i + 1) (genRow i s).2

/-- Every generated row has price at least 30, by the floor applied
after the noise multiplication. -/
theorem genRow_price_ge (i : ℕ) (s : RngState) : 30 ≤ (genRow i s).1.price := by
  obtain ⟨q, hq⟩ : ∃ q, (genRow i s).1.price = max 30 q := ⟨_, rfl⟩
  rw [hq]
  exact le_max_left _ _

/-- Price floor across the whole generation loop. -/
theorem genAll_price_ge : ∀ (n i : ℕ) (s : RngState), ∀ r ∈ genAll n i s, 30 ≤ r.price := by
  intro n
  induction n with
  | zero => intro i s r hr; simp [genAll] at hr
  | succ m ih =>
    intro i s r hr
    rcases (List.mem_cons).1 hr with rfl | hr'
    · exact genRow_price_ge i s
    · exact ih (i + 1) (genRow i s).2 r hr'

/-- Filling a null rating does not change the price column. -/
theorem fillRating_price (m : Option ℚ) (r : Row) : (fillRating m r).price = r.price := by
  unfold fillRating
  cases r.review_scores_rating <;> rfl

/-- Filling a null rating does not change the superhost column. -/
theorem fillRating_superhost (m : Option ℚ) (r : Row) :
    (fillRating m r).host_is_superhost = r.host_is_superhost := by
  unfold fillRating
  cases r.review_scores_rating <;> rfl

/-- Casting the boolean columns does not change the price column. -/
theorem castBools_price (r : Row) : (castBools r).price = r.price := rfl

/-- Casting the boolean columns preserves the integer value of the
superhost column. -/
theorem castBools_superhost_toInt (r : Row) :
    (castBools r).host_is_superhost.toInt = r.host_is_superhost.toInt := rfl

/-- The fillna step leaves the price column of the dataset
unchanged. -/
theorem filledRows_price (df : List Row) :
    (filledRows df).map Row.price = df.map Row.price := by
  unfold filledRows
  rw [List.map_map]
  exact List.map_congr_left fun r _ => fillRating_price _ r

/-- Every row of the cleaned dataset arises from a filled row that
passed the percentile filter. -/
theorem mem_clean_data {df : List Row} {r : Row} (h : r ∈ clean_data df) :
    ∃ r1 ∈ filledRows df,
      (quantile (df.map Row.price) (mkRat 1 100) ≤ r1.price ∧
        r1.price ≤ quantile (df.map Row.price) (mkRat 99 100)) ∧ r = castBools r1 := by
  unfold clean_data at h
  rw [filledRows_price] at h
  obtain ⟨r1, hr1, rfl⟩ := List.mem_map.1 h
  obtain ⟨hm, hcond⟩ := List.mem_filter.1 hr1
  rw [Bool.and_eq_true, decide_eq_true_eq, decide_eq_true_eq] at hcond
  exact ⟨r1, hm, hcond, rfl⟩

/-- The price of every cleaned row is a price of the input dataset. -/
theorem clean_data_price_mem {df : List Row} {r : Row} (h : r ∈ clean_data df) :
    r.price ∈ df.map Row.price := by
  obtain ⟨r1, hm, _, rfl⟩ := mem_clean_data h
  rw [castBools_price]
  have : r1.price ∈ (filledRows df).map Row.price := List.mem_map_of_mem Row.price hm
  rwa [filledRows_price] at this

/-- The integer superhost value of every cleaned row is the integer
superhost value of some input row. -/
theorem clean_data_superhost_mem {df : List Row} {r : Row} (h : r ∈ clean_data df) :
    ∃ r0 ∈ df, r.host_is_superhost.toInt = r0.host_is_superhost.toInt := by
  obtain ⟨r1, hm, _, rfl⟩ := mem_clean_data h
  unfold filledRows at hm
  obtain ⟨r0, hr0, rfl⟩ := List.mem_map.1 hm
  exact ⟨r0, hr0, by rw [castBools_superhost_toInt, fillRating_superhost]⟩

/-- An empty per-city grouping happens only on the empty dataset. -/
theorem cityMeans_eq_nil {df : List Row} (h : cityMeans df = []) : df = [] := by
  unfold cityMeans at h
  have h1 := List.map_eq_nil_iff.1 h
  have h2 := (List.dedup_eq_nil _).1 h1
  exact List.map_eq_nil_iff.1 h2

/-- C7: for every listing count n, two runs of the synthetic generator
from arbitrary ambient generator states produce identical datasets:
the generator reseeds the global generator with the fixed seed 42, so
its output depends on the seed and n alone. -/
theorem generate_sample_data_deterministic (s1 s2 : RngState) (n : ℕ) :
    generate_sample_data s1 n = generate_sample_data s2 n := rfl

/-- C3: load_data returns a dataset on every input - the only fallible
step, reading the CSV, is wrapped in try/except - and whenever the
read fails the returned dataset is the synthetic one generated with
the default count. -/
theorem load_data_never_fails (s : RngState)
    (read_csv : String → Except String (List Row)) (src : DataSource) :
    (∃ df, load_data s read_csv src = Except.ok df) ∧
      (∀ p e, src = DataSource.path p → read_csv p = Except.error e →
        load_data s read_csv src = Except.ok (generate_sample_data s 1000)) := by
  constructor
  · cases src with
    | sample => exact ⟨_, rfl⟩
    | path p =>
      cases h : read_csv p with
      | ok df => exact ⟨df, by simp [load_data, h]⟩
      | error e => exact ⟨generate_sample_data s 1000, by simp [load_data, h]⟩
  · rintro p e rfl hrc
    simp [load_data, hrc]

/-- Witness for C3 at a concrete failing reader and path. -/
theorem load_data_never_fails_witness :
    load_data 0 readFail (DataSource.path ("listings.csv")) =
      Except.ok (generate_sample_data 0 1000) :=
  (load_data_never_fails 0 readFail (DataSource.path ("listings.csv"))).2
    ("listings.csv") ("No such file or directory") rfl rfl

/-- C10: when the CSV read fails, load_data falls back to the
generator with its default count and hands back exactly 1000 rows,
whatever the requested file held. -/
theorem load_data_fallback_size (s : RngState)
    (read_csv : String → Except String (List Row)) (p e : String)
    (h : read_csv p = Except.error e) :
    load_data s read_csv (DataSource.path p) = Except.ok (generate_sample_data s 1000) ∧
      (generate_sample_data s 1000).length = 1000 := by
  constructor
  · simp [load_data, h]
  · exact genAll_length 1000 0 (npSeed 42)

/-- Witness for C10 at a concrete failing reader and path. -/
theorem load_data_fallback_size_witness :
    readFail ("data.csv") = Except.error ("No such file or directory") ∧
      (generate_sample_data 0 1000).length = 1000 :=
  ⟨rfl, (load_data_fallback_size 0 readFail ("data.csv") ("No such file or directory")
    rfl).2⟩

/-- C1: on a dataset that one cleaning pass leaves unchanged, a second
pass removes no row and leaves the six boolean columns of every row
unchanged. -/
theorem clean_data_fixed_point_second_pass (df : List Row) (h : clean_data df = df) :
    (clean_data (clean_data df)).length = (clean_data df).length ∧
      (clean_data (clean_data df)).map boolColumns = (clean_data df).map boolColumns := by
  rw [h, h]
  exact ⟨rfl, rfl⟩

/-- C2: every row surviving the cleaner has its price inside the closed
band of the 1st and 99th percentiles of the pre-clean price column;
rows at the boundary are kept; and cleaning never adds rows. -/
theorem clean_data_outlier_band (df : List Row) :
    (∀ r ∈ clean_data df,
        quantile (df.map Row.price) (mkRat 1 100) ≤ r.price ∧
          r.price ≤ quantile (df.map Row.price) (mkRat 99 100)) ∧
      (∀ r0 ∈ df, quantile (df.map Row.price) (mkRat 1 100) ≤ r0.price →
          r0.price ≤ quantile (df.map Row.price) (mkRat 99 100) →
            castBools (fillRating (ratingMedian df) r0) ∈ clean_data df) ∧
      (clean_data df).length ≤ df.length := by
  refine ⟨?_, ?_, ?_⟩
  · intro r hr
    obtain ⟨r1, _, hband, rfl⟩ := mem_clean_data hr
    rw [castBools_price]
    exact hband
  · intro r0 h0 hlo hhi
    unfold clean_data
    rw [filledRows_price]
    refine List.mem_map.2 ⟨fillRating (ratingMedian df) r0, ?_, rfl⟩
    refine List.mem_filter.2 ⟨?_, ?_⟩
    · unfold filledRows
      exact List.mem_map.2 ⟨r0, h0, rfl⟩
    · rw [Bool.and_eq_true, decide_eq_true_eq, decide_eq_true_eq, fillRating_price]
      exact ⟨hlo, hhi⟩
  · unfold clean_data
    rw [List.length_map]
    calc (List.filter _ (filledRows df)).length
        ≤ (filledRows df).length := List.length_filter_le _ _
      _ = df.length := by
          unfold filledRows
          rw [List.length_map]

/-- C8: every generated row has price at least 30 before cleaning, and
every row surviving the cleaner has strictly positive price. -/
theorem generated_prices_positive (s : RngState) (n : ℕ) (h : 1 ≤ n) :
    (∀ r ∈ generate_sample_data s n, 30 ≤ r.price) ∧
      (∀ r ∈ clean_data (generate_sample_data s n), 0 < r.price) := by
  refine ⟨fun r hr => genAll_price_ge n 0 (npSeed 42) r hr, fun r hr => ?_⟩
  have hp := clean_data_price_mem hr
  obtain ⟨r0, hr0, hpe⟩ := List.mem_map.1 hp
  have h30 := genAll_price_ge n 0 (npSeed 42) r0 hr0
  rw [← hpe]
  exact lt_of_lt_of_le (by norm_num) h30

section
attribute [local semireducible] Rat.add Rat.mul Rat.inv Rat.sub
set_option maxRecDepth 100000

/-- Witness for C1 at a concrete fixed point of the cleaner with two
distinct price values. -/
theorem clean_data_fixed_point_second_pass_witness :
    clean_data wFix = wFix ∧
      (clean_data (clean_data wFix)).length = (clean_data wFix).length :=
  ⟨by decide, (clean_data_fixed_point_second_pass wFix (by decide)).1⟩

/-- Witness for C2 at a concrete one-row dataset. -/
theorem clean_data_outlier_band_witness :
    quantile ([wOne].map Row.price) (mkRat 1 100) ≤ wOne.price ∧
      wOne.price ≤ quantile ([wOne].map Row.price) (mkRat 99 100) :=
  (clean_data_outlier_band [wOne]).1 wOne (by decide)

/-- Witness for C8 at n equal to one. -/
theorem generated_prices_positive_witness :
    (1 : ℕ) ≤ 1 ∧ ∀ r ∈ clean_data (generate_sample_data 0 1), 0 < r.price :=
  ⟨le_refl 1, (generated_prices_positive 0 1 (le_refl 1)).2⟩

end

/-- A flag comparison contains the group row of every flag value
present in the dataset. -/
theorem flagComparison_mem (f : Row → BCell) (lw ln : String) (df : List Row) (v : ℤ)
    (hv : v ∈ df.map (toIntFlag f)) :
    ((if v = 1 then lw else ln),
      round2 (avgPrice (df.filter fun r => decide (toIntFlag f r = v)))) ∈
      flagComparison f lw ln df := by
  unfold flagComparison groupKeys
  exact List.mem_map.2 ⟨v, (insSort_perm leZ _).mem_iff.2 (List.mem_dedup.2 hv), rfl⟩

/-- Every row of a flag comparison carries one of its two labels. -/
theorem flagComparison_fst (f : Row → BCell) (lw ln : String) (df : List Row)
    (x : String × ℚ) (hx : x ∈ flagComparison f lw ln df) : x.1 = lw ∨ x.1 = ln := by
  unfold flagComparison at hx
  obtain ⟨v, _, rfl⟩ := List.mem_map.1 hx
  by_cases h : v = 1
  · left
    simp [h]
  · right
    simp [h]

/-- The superhost-premium query contains the group row of every
superhost value present in the dataset. -/
theorem superhostPremium_mem (df : List Row) (v : ℤ)
    (hv : v ∈ df.map (toIntFlag Row.host_is_superhost)) :
    ((if v = 1 then "Superhost" else "Regular Host"),
      round2 (avgPrice (df.filter fun r => decide (toIntFlag Row.host_is_superhost r = v))),
      (df.filter fun r => decide (toIntFlag Row.host_is_superhost r = v)).length) ∈
      superhostPremiumQuery df := by
  unfold superhostPremiumQuery groupKeys
  exact List.mem_map.2 ⟨v, (insSort_perm leZ _).mem_iff.2 (List.mem_dedup.2 hv), rfl⟩

/-- C5 (amended): on every dataset in which the compared columns take
both values, the SQL analysis produces a with/without average-price
comparison for the wifi, kitchen and pool flags and a with/without
comparison (with counts) for superhost status; every row of its
amenity result carries one of those six labels, so no parking
comparison is produced. -/
theorem sql_analysis_flag_comparisons (df : List Row)
    (hw1 : (1 : ℤ) ∈ df.map (toIntFlag Row.has_wifi))
    (hw0 : (0 : ℤ) ∈ df.map (toIntFlag Row.has_wifi))
    (hk1 : (1 : ℤ) ∈ df.map (toIntFlag Row.has_kitchen))
    (hk0 : (0 : ℤ) ∈ df.map (toIntFlag Row.has_kitchen))
    (hp1 : (1 : ℤ) ∈ df.map (toIntFlag Row.has_pool))
    (hp0 : (0 : ℤ) ∈ df.map (toIntFlag Row.has_pool))
    (hs1 : (1 : ℤ) ∈ df.map (toIntFlag Row.host_is_superhost))
    (hs0 : (0 : ℤ) ∈ df.map (toIntFlag Row.host_is_superhost)) :
    ((("With WiFi"),
        round2 (avgPrice (df.filter fun r => decide (toIntFlag Row.has_wifi r = 1)))) ∈
        (perform_sql_analysis df).amenity_impact ∧
      (("No WiFi"),
        round2 (avgPrice (df.filter fun r => decide (toIntFlag Row.has_wifi r = 0)))) ∈
        (perform_sql_analysis df).amenity_impact) ∧
    ((("With Kitchen"),
        round2 (avgPrice (df.filter fun r => decide (toIntFlag Row.has_kitchen r = 1)))) ∈
        (perform_sql_analysis df).amenity_impact ∧
      (("No Kitchen"),
        round2 (avgPrice (df.filter fun r => decide (toIntFlag Row.has_kitchen r = 0)))) ∈
        (perform_sql_analysis df).amenity_impact) ∧
    ((("With Pool"),
        round2 (avgPrice (df.filter fun r => decide (toIntFlag Row.has_pool r = 1)))) ∈
        (perform_sql_analysis df).amenity_impact ∧
      (("No Pool"),
        round2 (avgPrice (df.filter fun r => decide (toIntFlag Row.has_pool r = 0)))) ∈
        (perform_sql_analysis df).amenity_impact) ∧
    ((("Superhost"),
        round2 (avgPrice (df.filter fun r => decide (toIntFlag Row.host_is_superhost r = 1))),
        (df.filter fun r => decide (toIntFlag Row.host_is_superhost r = 1)).length) ∈
        (perform_sql_analysis df).superhost_premium ∧
      (("Regular Host"),
        round2 (avgPrice (df.filter fun r => decide (toIntFlag Row.host_is_superhost r = 0))),
        (df.filter fun r => decide (toIntFlag Row.host_is_superhost r = 0)).length) ∈
        (perform_sql_analysis df).superhost_premium) ∧
    (∀ x ∈ (perform_sql_analysis df).amenity_impact,
      x.1 = "With WiFi" ∨ x.1 = "No WiFi" ∨ x.1 = "With Kitchen" ∨ x.1 = "No Kitchen" ∨
        x.1 = "With Pool" ∨ x.1 = "No Pool") := by
  have hw1m := flagComparison_mem Row.has_wifi ("With WiFi") ("No WiFi") df 1 hw1
  have hw0m := flagComparison_mem Row.has_wifi ("With WiFi") ("No WiFi") df 0 hw0
  have hk1m := flagComparison_mem Row.has_kitchen ("With Kitchen") ("No Kitchen") df 1 hk1
  have hk0m := flagComparison_mem Row.has_kitchen ("With Kitchen") ("No Kitchen") df 0 hk0
  have hp1m := flagComparison_mem Row.has_pool ("With Pool") ("No Pool") df 1 hp1
  have hp0m := flagComparison_mem Row.has_pool ("With Pool") ("No Pool") df 0 hp0
  have hs1m := superhostPremium_mem df 1 hs1
  have hs0m := superhostPremium_mem df 0 hs0
  norm_num at hw1m hw0m hk1m hk0m hp1m hp0m hs1m hs0m
  refine ⟨⟨?_, ?_⟩, ⟨?_, ?_⟩, ⟨?_, ?_⟩, ⟨hs1m, hs0m⟩, ?_⟩
  · simp only [perform_sql_analysis, amenityImpactQuery, List.mem_append]
    tauto
  · simp only [perform_sql_analysis, amenityImpactQuery, List.mem_append]
    tauto
  · simp only [perform_sql_analysis, amenityImpactQuery, List.mem_append]
    tauto
  · simp only [perform_sql_analysis, amenityImpactQuery, List.mem_append]
    tauto
  · simp only [perform_sql_analysis, amenityImpactQuery, List.mem_append]
    tauto
  · simp only [perform_sql_analysis, amenityImpactQuery, List.mem_append]
    tauto
  · intro x hx
    simp only [perform_sql_analysis, amenityImpactQuery, List.mem_append] at hx
    rcases hx with (hx | hx) | hx
    · rcases flagComparison_fst _ _ _ _ _ hx with h | h <;> tauto
    · rcases flagComparison_fst _ _ _ _ _ hx with h | h <;> tauto
    · rcases flagComparison_fst _ _ _ _ _ hx with h | h <;> tauto

/-- The pairwise-complete observations with the columns exchanged are
the swapped observations. -/
theorem pairsOf_swap (df : List Row) (i j : Fin 10) :
    pairsOf df j i = (pairsOf df i j).map Prod.swap := by
  unfold pairsOf
  induction df with
  | nil => rfl
  | cons r t ih =>
    simp only [List.filterMap_cons]
    cases hci : colVal i r <;> cases hcj : colVal j r <;> simp [hci, hcj, ih]

/-- The pairwise-complete observations of a column with itself are its
non-null values paired with themselves. -/
theorem pairsOf_diag (df : List Row) (i : Fin 10) :
    pairsOf df i i = (df.filterMap (colVal i)).map fun x => (x, x) := by
  unfold pairsOf
  induction df with
  | nil => rfl
  | cons r t ih =>
    simp only [List.filterMap_cons]
    cases hci : colVal i r <;> simp [hci, ih]

/-- First components of swapped pairs are the second components. -/
theorem map_fst_swap (p : List (ℚ × ℚ)) :
    (p.map Prod.swap).map Prod.fst = p.map Prod.snd := by
  rw [List.map_map]
  exact List.map_congr_left fun z _ => rfl

/-- Second components of swapped pairs are the first components. -/
theorem map_snd_swap (p : List (ℚ × ℚ)) :
    (p.map Prod.swap).map Prod.snd = p.map Prod.fst := by
  rw [List.map_map]
  exact List.map_congr_left fun z _ => rfl

/-- The centered cross-product sum is symmetric under swapping. -/
theorem covPairs_swap (p : List (ℚ × ℚ)) : covPairs (p.map Prod.swap) = covPairs p := by
  unfold covPairs
  rw [map_fst_swap, map_snd_swap, List.map_map]
  congr 1
  refine List.map_congr_left fun z _ => ?_
  simp only [Function.comp, Prod.fst_swap, Prod.snd_swap]
  ring

/-- The first-component sum of squares of the swapped pairs is the
second-component sum of squares. -/
theorem ssFst_swap (p : List (ℚ × ℚ)) : ssFst (p.map Prod.swap) = ssSnd p := by
  unfold ssFst ssSnd
  rw [map_fst_swap, List.map_map]
  congr 1

/-- The second-component sum of squares of the swapped pairs is the
first-component sum of squares. -/
theorem ssSnd_swap (p : List (ℚ × ℚ)) : ssSnd (p.map Prod.swap) = ssFst p := by
  unfold ssFst ssSnd
  rw [map_snd_swap, List.map_map]
  congr 1

/-- A centered sum of squares is nonnegative. -/
theorem ssFst_nonneg (p : List (ℚ × ℚ)) : 0 ≤ ssFst p := by
  unfold ssFst
  apply List.sum_nonneg
  intro x hx
  obtain ⟨z, _, rfl⟩ := List.mem_map.1 hx
  exact sq_nonneg _

/-- Diagonal values collapse onto the unpaired column values. -/
theorem map_fst_diag (v : List ℚ) : ((v.map fun x => (x, x)).map Prod.fst) = v := by
  rw [List.map_map]
  exact List.map_id v

/-- Diagonal values collapse onto the unpaired column values, second
component. -/
theorem map_snd_diag (v : List ℚ) : ((v.map fun x => (x, x)).map Prod.snd) = v := by
  rw [List.map_map]
  exact List.map_id v

/-- On the diagonal the centered cross-product sum equals the centered
sum of squares. -/
theorem covPairs_diag (v : List ℚ) :
    covPairs (v.map fun x => (x, x)) = ssFst (v.map fun x => (x, x)) := by
  unfold covPairs ssFst
  rw [map_fst_diag, map_snd_diag]
  congr 1
  refine List.map_congr_left fun z hz => ?_
  obtain ⟨x, _, rfl⟩ := List.mem_map.1 hz
  ring

/-- On the diagonal the two centered sums of squares coincide. -/
theorem ssSnd_diag (v : List ℚ) :
    ssSnd (v.map fun x => (x, x)) = ssFst (v.map fun x => (x, x)) := by
  unfold ssSnd ssFst
  rw [map_fst_diag, map_snd_diag]
  congr 1
  refine List.map_congr_left fun z hz => ?_
  obtain ⟨x, _, rfl⟩ := List.mem_map.1 hz
  ring

/-- C9: wherever it is defined - every column has non-zero centered
sum of squares over its pairwise-complete observations - the
correlation matrix of the ten numeric columns is symmetric and carries
1.0 on its whole diagonal. -/
theorem correlation_matrix_symm_diag (df : List Row)
    (h : ∀ i : Fin 10, ssFst (pairsOf df i i) ≠ 0) :
    (∀ i j, correlation_matrix df i j = correlation_matrix df j i) ∧
      (∀ i : Fin 10, correlation_matrix df i i = 1) := by
  constructor
  · intro i j
    unfold correlation_matrix
    rw [pairsOf_swap df i j, covPairs_swap, ssFst_swap, ssSnd_swap, mul_comm]
  · intro i
    have hnz := h i
    unfold correlation_matrix
    rw [pairsOf_diag] at hnz ⊢
    rw [covPairs_diag, ssSnd_diag]
    have hS0 : (0 : ℚ) ≤ ssFst ((df.filterMap (colVal i)).map fun x => (x, x)) :=
      ssFst_nonneg _
    have hcast : ((ssFst ((df.filterMap (colVal i)).map fun x => (x, x)) : ℚ) : ℝ) ≠ 0 := by
      exact_mod_cast hnz
    rw [Real.mul_self_sqrt (by exact_mod_cast hS0)]
    exact div_self hcast

/-- C4: on a non-empty cleaned dataset whose superhost column is
boolean-valued - as the data model prescribes - neither the six-panel
visualization nor the narrative report can raise: the superhost bar
panel sees at most two groups, which broadcast against its two labels,
and the report's only raising operation, the per-city argmax, sees a
non-empty grouping. -/
theorem presenter_no_crash (df : List Row)
    (hb : ∀ r ∈ df, r.host_is_superhost.toInt = 0 ∨ r.host_is_superhost.toInt = 1)
    (hne : clean_data df ≠ []) :
    create_visualizations (clean_data df) = Except.ok () ∧
      generate_report (clean_data df) = Except.ok () := by
  set K := groupKeys ((clean_data df).map (toIntFlag Row.host_is_superhost)) with hK
  have hmem : ∀ k ∈ K, k = 0 ∨ k = 1 := by
    intro k hk
    rw [hK] at hk
    unfold groupKeys at hk
    have hk1 := List.mem_dedup.1 ((insSort_perm leZ _).mem_iff.1 hk)
    obtain ⟨r, hr, rfl⟩ := List.mem_map.1 hk1
    obtain ⟨r0, hr0, heq⟩ := clean_data_superhost_mem hr
    unfold toIntFlag
    rw [heq]
    exact hb r0 hr0
  have hnd : K.Nodup := by
    rw [hK]
    unfold groupKeys
    exact ((insSort_perm leZ _).symm).nodup (List.nodup_dedup _)
  have hsub : K ⊆ [0, 1] := by
    intro k hk
    rcases hmem k hk with rfl | rfl <;> simp
  have hle : K.length ≤ 2 := by
    have := (List.subperm_of_subset hnd hsub).length_le
    simpa using this
  have hpos : K ≠ [] := by
    obtain ⟨r, hr⟩ := List.exists_mem_of_ne_nil _ hne
    have h1 : toIntFlag Row.host_is_superhost r ∈
        (clean_data df).map (toIntFlag Row.host_is_superhost) :=
      List.mem_map_of_mem _ hr
    have h2 : toIntFlag Row.host_is_superhost r ∈ K := by
      rw [hK]
      unfold groupKeys
      exact (insSort_perm leZ _).mem_iff.2 (List.mem_dedup.2 h1)
    exact List.ne_nil_of_mem h2
  have hlen1 : 1 ≤ K.length := List.length_pos.2 hpos
  have hm : K.length = 1 ∨ K.length = 2 := by omega
  have hsl : (superhostGroupMeans (clean_data df)).length = K.length := by
    rw [hK]
    unfold superhostGroupMeans groupKeys
    exact List.length_map _ _
  have hbar1 : mplBar [("Regular Host"), ("Superhost")]
      (superhostGroupMeans (clean_data df)) = Except.ok () := by
    rcases hm with h2 | h2 <;> simp [mplBar, mplBroadcastOk, hsl, h2]
  have hbar2 : mplBar [("WiFi"), ("Kitchen"), ("Parking"), ("Pool")]
      (amenityImpacts (clean_data df)) = Except.ok () := rfl
  refine ⟨?_, ?_⟩
  · simp only [create_visualizations, hbar1, hbar2]
    rfl
  · have hcm : cityMeans (clean_data df) ≠ [] := fun hnil => hne (cityMeans_eq_nil hnil)
    unfold generate_report
    split
    · next heq => exact absurd heq hcm
    · rfl

section
attribute [local semireducible] Rat.add Rat.mul Rat.inv Rat.sub
set_option maxRecDepth 100000

/-- Witness for C5 (amended) at a concrete two-row dataset. -/
theorem sql_analysis_flag_comparisons_witness :
    (1 : ℤ) ∈ wSqlData.map (toIntFlag Row.has_wifi) ∧
      (("With WiFi"),
        round2 (avgPrice (wSqlData.filter fun r => decide (toIntFlag Row.has_wifi r = 1)))) ∈
        (perform_sql_analysis wSqlData).amenity_impact :=
  ⟨by decide, ((sql_analysis_flag_comparisons wSqlData (by decide) (by decide) (by decide)
    (by decide) (by decide) (by decide) (by decide) (by decide)).1).1⟩

/-- Counterexample to C5 as stated: on a concrete cleaned dataset in
which the parking flag takes both values, the amenity result of the
SQL analysis contains no parking comparison at all. -/
theorem sql_analysis_no_parking_comparison :
    (∃ r ∈ clean_data wParkIn, toIntFlag Row.has_parking r = 1) ∧
      (∃ r ∈ clean_data wParkIn, toIntFlag Row.has_parking r = 0) ∧
      ("With Parking") ∉
        ((perform_sql_analysis (clean_data wParkIn)).amenity_impact.map Prod.fst) ∧
      ("No Parking") ∉
        ((perform_sql_analysis (clean_data wParkIn)).amenity_impact.map Prod.fst) := by
  decide

/-- Witness for C9 at a concrete two-row dataset in which every
numeric column varies. -/
theorem correlation_matrix_symm_diag_witness :
    (∀ i : Fin 10, ssFst (pairsOf wCorrData i i) ≠ 0) ∧
      correlation_matrix wCorrData 0 0 = 1 :=
  ⟨by decide, (correlation_matrix_symm_diag wCorrData (by decide)).2 0⟩

/-- Witness for C4 at a concrete two-row dataset with both superhost
classes. -/
theorem presenter_no_crash_witness :
    clean_data wVizIn ≠ [] ∧ create_visualizations (clean_data wVizIn) = Except.ok () :=
  ⟨by decide, (presenter_no_crash wVizIn (by decide) (by decide)).1⟩

end

end VistaHaven
